import Mathlib

/-!
Verification of the JT-gravity Schwarzian pipeline
(`JT_Gravity/Schwarzian_action.py`).

The numerical pipeline is embedded shallowly over an arbitrary linear
ordered field `α` (instantiated at `ℚ` for concrete evaluations and at
`ℝ` for the ODE-solution statement).  Floating-point numbers are
modelled as exact field elements; numpy whole-array operations are
modelled elementwise (scalar cores plus `List` wrappers); the external
scipy solver result is an explicit record; Python exceptions are
modelled with `Except`.
-/

namespace JTGravity

variable {α : Type*} [LinearOrderedField α]

/-- Machine epsilon for IEEE double precision, the default `config.epsilon`
(line 16 of the source): `np.finfo(np.float64).eps = 2^-52`. -/
def defaultEpsilon : ℚ := 1 / 2 ^ 52

/-- Mirrors the `Config` dataclass (lines 9-18).  Field `N` is the grid
size (an integer); all other fields are real-valued parameters. -/
structure Config where
  C : ℚ
  delta : ℚ
  t_start : ℚ
  t_end : ℚ
  N : ℤ
  epsilon : ℚ
  delta_T : ℚ
  omega_T : ℚ

/-- Default configuration values (lines 11-18). -/
def default_config : Config :=
  ⟨1, 1 / 100, 0, 3, 1000000, defaultEpsilon, 1 / 100, 1 / 2⟩

/-- Mirrors `np.clip(x, lo, None)`: clamp from below only.  This is the
guard used in `compute_initial_schwarzian` (line 104) and inside the
integrator right-hand side (line 120). -/
def np_clip_min (x lo : α) : α := max x lo

/-- Mirrors `np.sign`: 1 for positive, -1 for negative, 0 for zero. -/
def np_sign (x : α) : α := if 0 < x then 1 else if x < 0 then -1 else 0

/-- Mirrors the guard of the reconstruction path (line 143):
`np.where(np.abs(fp) > eps, fp, np.sign(fp) * eps)`. -/
def sign_guard (f_prime eps : α) : α :=
  if eps < |f_prime| then f_prime else np_sign f_prime * eps

/-- Scalar core of the initial Schwarzian computation (lines 104-106),
as a function of the derivative triple (f′, f″, f‴). -/
def initial_schwarzian_at (eps f_prime f_double f_triple : α) : α :=
  let f_prime_safe := np_clip_min f_prime eps
  let ratio := f_double / f_prime_safe
  f_triple / f_prime_safe - 1.5 * ratio ^ 2

/-- Scalar core of the guarded Schwarzian rule of the reconstruction path
(lines 143-144 and 151), as a function of the derivative triple. -/
def evolved_schwarzian_at (eps f_prime f_double f_triple : α) : α :=
  let f_prime_safe := sign_guard f_prime eps
  let ratio := f_double / f_prime_safe
  f_triple / f_prime_safe - 1.5 * ratio ^ 2

/-- Result record of `compute_initial_schwarzian` (lines 84-108). -/
structure InitialSchwarzian (α : Type*) where
  f_initial : List α
  f_prime_initial : List α
  f_double_prime_initial : List α
  S_initial : List α

/-- Mirrors `compute_initial_schwarzian` (lines 84-108), with the numpy
array arithmetic modelled elementwise on lists:
`f = t + φ`, `f′ = 1 + φ′`, `f″ = φ″`, `f‴ = φ‴`, and
`S = f‴/f′_safe − 1.5·(f″/f′_safe)²` with `f′_safe = np.clip(f′, ε, None)`. -/
def compute_initial_schwarzian (eps : α)
    (t_np phi_initial phi_prime phi_double_prime phi_triple_prime : List α) :
    InitialSchwarzian α :=
  ⟨List.zipWith (· + ·) t_np phi_initial,
   phi_prime.map (fun x => 1 + x),
   phi_double_prime,
   List.zipWith3 (fun pp pdd pddd => initial_schwarzian_at eps (1 + pp) pdd pddd)
     phi_prime phi_double_prime phi_triple_prime⟩

/-- Mirrors `temperature_perturbation` (lines 46-48):
`T(t) = 1 + δ_T·sin(ω_T·t)`.  The transcendental `np.sin` is abstracted
as an explicit function parameter `sinf`. -/
def temperature_perturbation (sinf : α → α) (t delta_T omega_T : α) : α :=
  1 + delta_T * sinf (omega_T * t)

/-- The 5-dimensional ODE state `y = (f, f′, f″, φ, φ′)` unpacked at
line 113 of the source. -/
structure StateVec (α : Type*) where
  f : α
  f_prime : α
  f_double_prime : α
  phi : α
  phi_prime : α

/-- The derivative vector returned by the right-hand side (line 125):
`(f′, f″, f‴, φ′, φ″)`. -/
structure RHS5 (α : Type*) where
  d_f : α
  d_f_prime : α
  d_f_double_prime : α
  d_phi : α
  d_phi_prime : α

/-- Mirrors the inner function `equations_of_motion` (lines 112-125).
`S0_spline` is the cubic-spline interpolant, abstracted as a function;
`sinf` abstracts `np.sin`. -/
def equations_of_motion (sinf : α → α) (C delta_T omega_T epsilon : α)
    (S0_spline : α → α) (t : α) (y : StateVec α) : RHS5 α :=
  let temperature := temperature_perturbation sinf t delta_T omega_T
  let S0_t := S0_spline t
  let S_time_dependent := S0_t * temperature
  let f_prime_safe := np_clip_min y.f_prime epsilon
  let ratio := y.f_double_prime / f_prime_safe
  let f_triple_prime := f_prime_safe * (S_time_dependent + 1.5 * ratio ^ 2) + C * y.phi_prime
  let phi_double_prime := -C * y.f_prime
  ⟨y.f_prime, y.f_double_prime, f_triple_prime, y.phi_prime, phi_double_prime⟩

/-- Scalar core of the evolved-Schwarzian reconstruction in
`process_and_plot_solution` (lines 143-151): rebuild `f‴` from the
right-hand-side formula and divide it back by the guarded `f′`. -/
def reconstruct_S_evolved_at (sinf : α → α) (C delta_T omega_T epsilon : α)
    (S0_spline : α → α) (t f_prime_evolved f_double_prime_evolved phi_prime_evolved : α) : α :=
  let f_prime_evolved_safe := sign_guard f_prime_evolved epsilon
  let ratio := f_double_prime_evolved / f_prime_evolved_safe
  let temperature := temperature_perturbation sinf t delta_T omega_T
  let S0_t := S0_spline t
  let S_time_dependent := S0_t * temperature
  let f_triple_prime_evolved :=
    f_prime_evolved_safe * (S_time_dependent + 1.5 * ratio ^ 2) + C * phi_prime_evolved
  f_triple_prime_evolved / f_prime_evolved_safe - 1.5 * ratio ^ 2

/-- Sample placed at index i by `np.linspace(start, stop, num)`: for
num ≥ 2 numpy includes both endpoints with uniform spacing
(stop − start)/(num − 1); a single-sample call returns just the start
point. -/
def linspace_sample (start stop : ℚ) (num : ℤ) (i : ℕ) : ℚ :=
  if num = 1 then start else start + (stop - start) * (i : ℚ) / ((num : ℚ) - 1)

/-- Mirrors `np.linspace(start, stop, num)` (line 24): `num` evenly
spaced samples including both endpoints; numpy raises for a negative
sample count, modelled as `Except.error`. -/
def np_linspace (start stop : ℚ) (num : ℤ) : Except String (List ℚ) :=
  if num < 0 then
    Except.error "ValueError: Number of samples must be non-negative"
  else
    Except.ok ((List.range num.toNat).map (linspace_sample start stop num))

/-- Models the pipeline prelude: the grid construction of `main`
(line 24) followed by the frequency `omega = 2·π/(t_np[-1] − t_np[0])`
of `compute_initial_perturbations` (line 54).  Python indexing of an
empty array is modelled as `Except.error`.  A zero time span does NOT
fail here: sympy returns the symbolic infinity `zoo` for the division
rather than raising, and the run continues into the later stages, so
the prelude returns the grid together with an omega value (for a zero
span that value is meaningless — Lean total division yields 0 where
the code carries `zoo`/NaN — and no theorem relies on it).  The
transcendental constant π is abstracted as the parameter `piv`. -/
def pipeline_prelude (piv : ℚ) (cfg : Config) : Except String (List ℚ × ℚ) :=
  match np_linspace cfg.t_start cfg.t_end cfg.N with
  | Except.error e => Except.error e
  | Except.ok t_np =>
    match t_np.head?, t_np.getLast? with
    | some t_first, some t_last => Except.ok (t_np, 2 * piv / (t_last - t_first))
    | _, _ => Except.error "IndexError: index out of bounds for empty time array"

/-- Models the input validation of the scipy CubicSpline constructor
called at line 35 of `main`.  Like `solve_ivp`, the spline library is
external; its documented behaviour is to reject a grid with fewer than
two samples or one that is not strictly increasing by raising a
ValueError. -/
def cubic_spline_check (x : List ℚ) : Except String Unit :=
  if x.length < 2 then
    Except.error "ValueError: x must contain at least 2 elements"
  else if List.Chain' (fun a b => a < b) x then
    Except.ok ()
  else
    Except.error "ValueError: x must be strictly increasing sequence"

/-- Models `main` lines 24-35: grid construction, the omega computation
of the symbolic stage, then the CubicSpline construction over the grid;
returns the grid and omega when the spline construction is reached and
accepts its input. -/
def pipeline_to_spline (piv : ℚ) (cfg : Config) : Except String (List ℚ × ℚ) :=
  match pipeline_prelude piv cfg with
  | Except.error e => Except.error e
  | Except.ok (t_np, omega) =>
    match cubic_spline_check t_np with
    | Except.error e => Except.error e
    | Except.ok _ => Except.ok (t_np, omega)

/-- Result record of the external `scipy.integrate.solve_ivp` call
(line 127): success flag, diagnostic message, trajectory rows. -/
structure IVPResult where
  success : Bool
  message : String
  y : List (List ℚ)

/-- Mirrors the failure policy of `solve_equations_of_motion`
(lines 127-132): the solver call itself is external, so its outcome is
taken as input; an unsuccessful outcome raises a `RuntimeError` whose
message embeds the solver diagnostic, a successful one returns the
solution unchanged. -/
def solve_equations_of_motion (sol : IVPResult) : Except String IVPResult :=
  if sol.success = false then
    Except.error ("Solver failed: " ++ sol.message ++
      ". Consider adjusting solver parameters or reviewing initial conditions.")
  else
    Except.ok sol

/-! Theorems. -/

/-- Claim C1 (corrected): the two safe-division paths do agree, but only
on positive f′ — for every triple with `0 < f′` the initial-condition
path and the reconstruction path produce the same guarded divisor and
the same Schwarzian value. -/
theorem C1_paths_agree_for_positive_fprime (eps f_prime f_double f_triple : α)
    (h2 : 0 < f_prime) :
    np_clip_min f_prime eps = sign_guard f_prime eps ∧
    initial_schwarzian_at eps f_prime f_double f_triple =
      evolved_schwarzian_at eps f_prime f_double f_triple := by
  have key : np_clip_min f_prime eps = sign_guard f_prime eps := by
    unfold np_clip_min sign_guard np_sign
    rw [abs_of_pos h2]
    rcases lt_or_le eps f_prime with hlt | hle
    · rw [if_pos hlt, max_eq_left hlt.le]
    · rw [if_neg (not_lt.mpr hle), if_pos h2, one_mul, max_eq_right hle]
  refine ⟨key, ?_⟩
  unfold initial_schwarzian_at evolved_schwarzian_at
  rw [key]

/-- Claim C1 witness: the agreement theorem evaluated at the concrete
triple (1, 2, 3) with the default epsilon. -/
theorem C1_paths_agree_witness :
    np_clip_min (1 : ℚ) defaultEpsilon = sign_guard (1 : ℚ) defaultEpsilon ∧
    initial_schwarzian_at defaultEpsilon (1 : ℚ) 2 3 =
      evolved_schwarzian_at defaultEpsilon (1 : ℚ) 2 3 :=
  C1_paths_agree_for_positive_fprime defaultEpsilon 1 2 3 one_pos

/-- Claim C1 counterexample: at the input triple (−1, 0, 1) with the
default epsilon the two paths produce different guarded divisors and
different Schwarzian values, refuting the claim that they are one and
the same function on every input triple. -/
theorem C1_paths_differ_cex :
    np_clip_min (-1 : ℚ) defaultEpsilon ≠ sign_guard (-1 : ℚ) defaultEpsilon ∧
    initial_schwarzian_at defaultEpsilon (-1 : ℚ) 0 1 ≠
      evolved_schwarzian_at defaultEpsilon (-1 : ℚ) 0 1 := by
  constructor
  · norm_num [np_clip_min, sign_guard, np_sign, defaultEpsilon]
  · norm_num [initial_schwarzian_at, evolved_schwarzian_at, np_clip_min,
      sign_guard, np_sign, defaultEpsilon]

/-- Claim C2 (corrected): only the reconstruction guard is
sign-preserving; the initial-condition and integrator guard
`np.clip(f′, ε, None)` is a lower clamp that maps every negative f′ to
+ε and always returns at least ε. -/
theorem C2_clamp_behaviour (f_prime eps : α) (h : 0 < eps) :
    (0 < f_prime → 0 < sign_guard f_prime eps) ∧
    (f_prime < 0 → sign_guard f_prime eps < 0) ∧
    (f_prime < 0 → np_clip_min f_prime eps = eps) ∧
    eps ≤ np_clip_min f_prime eps := by
  refine ⟨?_, ?_, ?_, le_max_right _ _⟩
  · intro hp
    unfold sign_guard np_sign
    by_cases hc : eps < |f_prime|
    · rw [if_pos hc]; exact hp
    · rw [if_neg hc, if_pos hp, one_mul]; exact h
  · intro hn
    unfold sign_guard np_sign
    by_cases hc : eps < |f_prime|
    · rw [if_pos hc]; exact hn
    · rw [if_neg hc, if_neg (not_lt.mpr hn.le), if_pos hn, neg_one_mul]
      exact neg_lt_zero.mpr h
  · intro hn
    unfold np_clip_min
    exact max_eq_right (hn.le.trans h.le)

/-- Claim C2 witness: the clamp-behaviour theorem evaluated at the
concrete input f′ = −2 with the default epsilon. -/
theorem C2_clamp_behaviour_witness :
    (0 < (-2 : ℚ) → 0 < sign_guard (-2 : ℚ) defaultEpsilon) ∧
    ((-2 : ℚ) < 0 → sign_guard (-2 : ℚ) defaultEpsilon < 0) ∧
    ((-2 : ℚ) < 0 → np_clip_min (-2 : ℚ) defaultEpsilon = defaultEpsilon) ∧
    defaultEpsilon ≤ np_clip_min (-2 : ℚ) defaultEpsilon :=
  C2_clamp_behaviour (-2) defaultEpsilon (by norm_num [defaultEpsilon])

/-- Claim C2 counterexample: in the initial-condition (and integrator)
path, f′ = −1 has magnitude above epsilon yet is not kept, and is
replaced by the positive value ε — the clamp there is not
sign-preserving. -/
theorem C2_clamp_not_sign_preserving_cex :
    defaultEpsilon < |(-1 : ℚ)| ∧
    np_clip_min (-1 : ℚ) defaultEpsilon ≠ -1 ∧
    0 < np_clip_min (-1 : ℚ) defaultEpsilon := by
  norm_num [np_clip_min, defaultEpsilon]

/-- Claim C3 (code bug): the reconstruction guard evaluated at
f′ = 0 returns `sign(0)·ε = 0`, so the guarded divisor violates
|f′_safe| ≥ ε and the subsequent divisions divide by zero (NaN in the
floating-point code). -/
theorem C3_sign_guard_zero_bug :
    sign_guard (0 : ℚ) defaultEpsilon = 0 ∧
    |sign_guard (0 : ℚ) defaultEpsilon| < defaultEpsilon := by
  norm_num [sign_guard, np_sign, defaultEpsilon]

/-- Claim C5 (confirmed): the integrator right-hand side returns exactly
the derivative vector (f′, f″, f‴, φ′, φ″) with
f‴ = f′_safe·(S_effective(t) + 1.5·(f″/f′_safe)²) + C·φ′ and
φ″ = −C·f′, where S_effective(t) = SplineSource(t)·T(t) and
T(t) = 1 + δ_T·sin(ω_T·t). -/
theorem C5_rhs_formula (sinf : α → α) (C delta_T omega_T epsilon : α)
    (S0_spline : α → α) (t : α) (y : StateVec α) :
    equations_of_motion sinf C delta_T omega_T epsilon S0_spline t y =
      ⟨y.f_prime, y.f_double_prime,
        np_clip_min y.f_prime epsilon *
            (S0_spline t * temperature_perturbation sinf t delta_T omega_T +
              1.5 * (y.f_double_prime / np_clip_min y.f_prime epsilon) ^ 2) +
          C * y.phi_prime,
        y.phi_prime, -C * y.f_prime⟩ ∧
    temperature_perturbation sinf t delta_T omega_T = 1 + delta_T * sinf (omega_T * t) :=
  ⟨rfl, rfl⟩

/-- Claim C6 (confirmed): a successful solver outcome is returned whole;
an unsuccessful one produces the single error condition, whose message
embeds the solver diagnostic text, and carries no trajectory. -/
theorem C6_failure_policy (sol : IVPResult) :
    (sol.success = true → solve_equations_of_motion sol = Except.ok sol) ∧
    (sol.success = false → ∃ pre post : String,
      solve_equations_of_motion sol = Except.error (pre ++ sol.message ++ post)) := by
  constructor
  · intro h
    simp [solve_equations_of_motion, h]
  · intro h
    exact ⟨"Solver failed: ",
      ". Consider adjusting solver parameters or reviewing initial conditions.",
      by simp [solve_equations_of_motion, h]⟩

/-- Claim C6 witness: the failure policy evaluated at a concrete
successful and a concrete failed solver outcome. -/
theorem C6_failure_policy_witness :
    solve_equations_of_motion ⟨true, "ok", []⟩ = Except.ok ⟨true, "ok", []⟩ ∧
    ∃ pre post : String,
      solve_equations_of_motion ⟨false, "step size too small", []⟩ =
        Except.error (pre ++ "step size too small" ++ post) :=
  ⟨(C6_failure_policy ⟨true, "ok", []⟩).1 rfl,
   (C6_failure_policy ⟨false, "step size too small", []⟩).2 rfl⟩

/-- Claim C9 (confirmed): with δ_T = 0 the temperature perturbation is
identically 1, and multiplying the interpolated source by it is a
no-op. -/
theorem C9_temperature_noop (sinf : α → α) (omega_T t S0_t : α) :
    temperature_perturbation sinf t 0 omega_T = 1 ∧
    S0_t * temperature_perturbation sinf t 0 omega_T = S0_t := by
  constructor <;> simp [temperature_perturbation]

/-- Helper: the elementwise initial-Schwarzian computation on the
all-zero perturbation arrays yields the all-zero list. -/
lemma zipWith3_initial_zero (eps : α) (l : List α) :
    List.zipWith3 (fun pp pdd pddd => initial_schwarzian_at eps (1 + pp) pdd pddd)
      (l.map fun _ => 0) (l.map fun _ => 0) (l.map fun _ => 0) = l.map fun _ => 0 := by
  induction l with
  | nil => rfl
  | cons a l ih =>
    simp only [List.map_cons, List.zipWith3, ih, List.cons.injEq, and_true]
    simp [initial_schwarzian_at, np_clip_min]

/-- Claim C8 (confirmed): for the zero perturbation (so f′ = 1 and
f″ = f‴ = 0) the initial Schwarzian computation returns 0 at every time
sample. -/
theorem C8_identity_schwarzian_zero (eps : α) (t_np : List α) :
    (compute_initial_schwarzian eps t_np (t_np.map fun _ => 0) (t_np.map fun _ => 0)
        (t_np.map fun _ => 0) (t_np.map fun _ => 0)).S_initial = t_np.map fun _ => 0 := by
  simpa [compute_initial_schwarzian] using zipWith3_initial_zero eps t_np

/-- Helper: for a positive epsilon the reconstruction guard returns a
nonzero value whenever its input is nonzero. -/
lemma sign_guard_ne_zero (f_prime eps : α) (h1 : 0 < eps) (h2 : f_prime ≠ 0) :
    sign_guard f_prime eps ≠ 0 := by
  unfold sign_guard np_sign
  by_cases hc : eps < |f_prime|
  · rwa [if_pos hc]
  · rw [if_neg hc]
    rcases h2.lt_or_lt with hn | hp
    · rw [if_neg (not_lt.mpr hn.le), if_pos hn, neg_one_mul]
      exact neg_ne_zero.mpr h1.ne'
    · rw [if_pos hp, one_mul]
      exact h1.ne'

/-- Claim C10 (corrected): at every sample with a nonzero evolved f′
(and positive epsilon) the reconstructed evolved Schwarzian collapses
to the effective source plus C·φ′/f′_safe — the 1.5·(f″/f′_safe)² terms
cancel exactly. -/
theorem C10_reconstruction_identity (sinf : α → α) (C delta_T omega_T epsilon : α)
    (S0_spline : α → α) (t f_prime f_double phi_prime : α)
    (h1 : 0 < epsilon) (h2 : f_prime ≠ 0) :
    reconstruct_S_evolved_at sinf C delta_T omega_T epsilon S0_spline t
        f_prime f_double phi_prime =
      S0_spline t * temperature_perturbation sinf t delta_T omega_T +
        C * phi_prime / sign_guard f_prime epsilon := by
  have hs := sign_guard_ne_zero f_prime epsilon h1 h2
  simp only [reconstruct_S_evolved_at]
  rw [add_div, mul_div_cancel_left₀ _ hs]
  ring

/-- Claim C10 witness: the reconstruction identity evaluated at the
concrete sample (f′, f″, φ′) = (1, 2, 3) with the default epsilon. -/
theorem C10_reconstruction_identity_witness :
    reconstruct_S_evolved_at (fun _ => 0) 1 0 0 defaultEpsilon (fun _ => 1) 0 1 2 3 =
      (fun _ => (1 : ℚ)) 0 * temperature_perturbation (fun _ => 0) 0 0 0 +
        1 * 3 / sign_guard (1 : ℚ) defaultEpsilon :=
  C10_reconstruction_identity (fun _ => 0) 1 0 0 defaultEpsilon (fun _ => 1) 0 1 2 3
    (by norm_num [defaultEpsilon]) one_ne_zero

/-- Claim C10 counterexample: at a sample with f′ = 0 the guard returns
0, the cancellation fails, and the claimed identity is false (here the
reconstruction yields 0 while the claimed value is 1; the
floating-point code produces NaN at such a sample). -/
theorem C10_reconstruction_identity_cex :
    reconstruct_S_evolved_at (fun _ => 0) 1 0 0 defaultEpsilon (fun _ => 1) 0 0 0 0 ≠
      (fun _ => (1 : ℚ)) 0 * temperature_perturbation (fun _ => 0) 0 0 0 +
        1 * 0 / sign_guard (0 : ℚ) defaultEpsilon := by
  norm_num [reconstruct_S_evolved_at, temperature_perturbation, sign_guard, np_sign,
    defaultEpsilon]

/-- Helper: a negative grid size makes the grid construction fail. -/
lemma pipeline_prelude_error_of_neg (piv : ℚ) (cfg : Config) (h : cfg.N < 0) :
    pipeline_prelude piv cfg =
      Except.error "ValueError: Number of samples must be non-negative" := by
  unfold pipeline_prelude np_linspace
  rw [if_pos h]

/-- Helper: a zero grid size yields an empty grid, so reading its
endpoints fails. -/
lemma pipeline_prelude_error_of_zero (piv : ℚ) (cfg : Config) (h : cfg.N = 0) :
    pipeline_prelude piv cfg =
      Except.error "IndexError: index out of bounds for empty time array" := by
  unfold pipeline_prelude np_linspace
  rw [h]
  rfl

/-- Helper: a positive sample count takes the success branch of the
grid construction. -/
lemma np_linspace_pos (start stop : ℚ) (num : ℤ) (h : 0 < num) :
    np_linspace start stop num =
      Except.ok ((List.range num.toNat).map (linspace_sample start stop num)) := by
  unfold np_linspace
  rw [if_neg (by omega)]

/-- Helper: first and last element of a map over a nonempty range. -/
lemma head_last_map_range {β : Type*} (g : ℕ → β) (m : ℕ) :
    ((List.range (m + 1)).map g).head? = some (g 0) ∧
    ((List.range (m + 1)).map g).getLast? = some (g m) := by
  constructor
  · rw [List.range_succ_eq_map, List.map_cons, List.head?_cons]
  · rw [List.range_succ, List.map_append]
    simp [List.getLast?_concat]

/-- Helper: for a positive grid size the prelude succeeds, returning
the linspace grid and the omega value built from its endpoints. -/
lemma pipeline_prelude_ok_of_pos (piv : ℚ) (cfg : Config) (m : ℕ)
    (hm : cfg.N.toNat = m + 1) (h : 0 < cfg.N) :
    pipeline_prelude piv cfg = Except.ok
      ((List.range (m + 1)).map (linspace_sample cfg.t_start cfg.t_end cfg.N),
        2 * piv / (linspace_sample cfg.t_start cfg.t_end cfg.N m -
          linspace_sample cfg.t_start cfg.t_end cfg.N 0)) := by
  have h1 : np_linspace cfg.t_start cfg.t_end cfg.N =
      Except.ok ((List.range (m + 1)).map (linspace_sample cfg.t_start cfg.t_end cfg.N)) := by
    rw [np_linspace_pos cfg.t_start cfg.t_end cfg.N h, hm]
  obtain ⟨hh, hl⟩ := head_last_map_range (linspace_sample cfg.t_start cfg.t_end cfg.N) m
  unfold pipeline_prelude
  rw [h1]
  simp only [hh, hl]

/-- Helper: a prelude failure propagates through the spline stage. -/
lemma pipeline_to_spline_error_of_prelude (piv : ℚ) (cfg : Config) (e : String)
    (h : pipeline_prelude piv cfg = Except.error e) :
    pipeline_to_spline piv cfg = Except.error e := by
  unfold pipeline_to_spline
  rw [h]

/-- Helper: a rejected spline input propagates to the stage output. -/
lemma pipeline_to_spline_error_of_check (piv : ℚ) (cfg : Config) (t_np : List ℚ)
    (omega : ℚ) (e : String)
    (h1 : pipeline_prelude piv cfg = Except.ok (t_np, omega))
    (h2 : cubic_spline_check t_np = Except.error e) :
    pipeline_to_spline piv cfg = Except.error e := by
  unfold pipeline_to_spline
  rw [h1]
  simp only [h2]

/-- Helper: the spline constructor rejects a grid with fewer than two
samples. -/
lemma cubic_spline_check_short (x : List ℚ) (h : x.length < 2) :
    cubic_spline_check x =
      Except.error "ValueError: x must contain at least 2 elements" := by
  unfold cubic_spline_check
  rw [if_pos h]

/-- Helper: the spline constructor rejects a grid whose first two
samples do not increase. -/
lemma cubic_spline_check_not_increasing (x0 x1 : ℚ) (l : List ℚ) (h : ¬ x0 < x1) :
    cubic_spline_check (x0 :: x1 :: l) =
      Except.error "ValueError: x must be strictly increasing sequence" := by
  unfold cubic_spline_check
  rw [if_neg (by simp only [List.length_cons]; omega),
    if_neg (fun hch => h (List.chain'_cons.mp hch).1)]

/-- Helper: the spline constructor rejects every constant grid. -/
lemma cubic_spline_check_replicate (n : ℕ) (c : ℚ) :
    ∃ e, cubic_spline_check (List.replicate n c) = Except.error e := by
  by_cases h : n < 2
  · exact ⟨_, cubic_spline_check_short _ (by simpa using h)⟩
  · obtain ⟨m, hm⟩ : ∃ m, n = m + 2 := ⟨n - 2, by omega⟩
    rw [hm, List.replicate_succ, List.replicate_succ]
    exact ⟨_, cubic_spline_check_not_increasing c c _ (lt_irrefl c)⟩

/-- Helper: with a zero span and a positive grid size, every linspace
sample equals the start point. -/
lemma linspace_sample_const (start : ℚ) (num : ℤ) (i : ℕ) :
    linspace_sample start start num i = start := by
  unfold linspace_sample
  rw [sub_self, zero_mul, zero_div, add_zero, ite_self]

/-- Claim C4 (corrected): there is no up-front configuration check and
no configuration-error message; a degenerate configuration fails only
incidentally inside the pipeline stages — a non-positive grid size
fails in the grid construction (numpy ValueError or an index error on
the empty grid), while degenerate bounds t_end ≤ t_start pass through
the grid and symbolic stages and are first rejected by the CubicSpline
constructor at line 35, whose input validation refuses a grid that is
not strictly increasing or has fewer than two samples. -/
theorem C4_degenerate_config_errors (piv : ℚ) (cfg : Config)
    (h : cfg.N ≤ 0 ∨ cfg.t_end ≤ cfg.t_start) :
    ∃ e, pipeline_to_spline piv cfg = Except.error e := by
  rcases lt_trichotomy cfg.N 0 with hneg | hzero | hpos
  · exact ⟨_, pipeline_to_spline_error_of_prelude piv cfg _
      (pipeline_prelude_error_of_neg piv cfg hneg)⟩
  · exact ⟨_, pipeline_to_spline_error_of_prelude piv cfg _
      (pipeline_prelude_error_of_zero piv cfg hzero)⟩
  · have hspan : cfg.t_end ≤ cfg.t_start := by
      rcases h with hN | hs
      · exact absurd hN (by omega)
      · exact hs
    by_cases hN1 : cfg.N = 1
    · have hpre := pipeline_prelude_ok_of_pos piv cfg 0 (by omega) hpos
      exact ⟨_, pipeline_to_spline_error_of_check piv cfg _ _ _ hpre
        (cubic_spline_check_short _ (by simp))⟩
    · have hN2 : 2 ≤ cfg.N := by omega
      rcases lt_or_eq_of_le hspan with hlt | heq
      · obtain ⟨m, hm2⟩ : ∃ m, cfg.N.toNat = m + 1 + 1 := ⟨cfg.N.toNat - 2, by omega⟩
        have hpre := pipeline_prelude_ok_of_pos piv cfg (m + 1) hm2 hpos
        set g := linspace_sample cfg.t_start cfg.t_end cfg.N with hg
        obtain ⟨rest, hL⟩ : ∃ rest, (List.range (m + 1 + 1)).map g = g 0 :: g 1 :: rest := by
          rw [List.range_succ_eq_map, List.range_succ_eq_map]
          exact ⟨_, rfl⟩
        have hg0 : g 0 = cfg.t_start := by
          rw [hg]
          unfold linspace_sample
          rw [if_neg hN1]
          simp
        have hg1 : g 1 = cfg.t_start + (cfg.t_end - cfg.t_start) / ((cfg.N : ℚ) - 1) := by
          rw [hg]
          unfold linspace_sample
          rw [if_neg hN1]
          simp
        have hden : (0 : ℚ) < (cfg.N : ℚ) - 1 := by
          have h2 : (2 : ℚ) ≤ (cfg.N : ℚ) := by exact_mod_cast hN2
          linarith
        have hstep : (cfg.t_end - cfg.t_start) / ((cfg.N : ℚ) - 1) < 0 :=
          div_neg_of_neg_of_pos (by linarith) hden
        have h01 : ¬ g 0 < g 1 := by
          rw [hg0, hg1]
          exact not_lt.mpr (by linarith)
        rw [hL] at hpre
        exact ⟨_, pipeline_to_spline_error_of_check piv cfg _ _ _ hpre
          (cubic_spline_check_not_increasing (g 0) (g 1) rest h01)⟩
      · obtain ⟨m, hm⟩ : ∃ m, cfg.N.toNat = m + 1 := ⟨cfg.N.toNat - 1, by omega⟩
        have hpre := pipeline_prelude_ok_of_pos piv cfg m hm hpos
        have hmap : (List.range (m + 1)).map (linspace_sample cfg.t_start cfg.t_end cfg.N) =
            List.replicate (m + 1) cfg.t_start := by
          rw [heq, List.map_congr_left
            (fun i _ => linspace_sample_const cfg.t_start cfg.N i),
            List.map_const', List.length_range]
        rw [hmap] at hpre
        obtain ⟨e, he⟩ := cubic_spline_check_replicate (m + 1) cfg.t_start
        exact ⟨e, pipeline_to_spline_error_of_check piv cfg _ _ e hpre he⟩

/-- Claim C4 witness: the degenerate-configuration theorem evaluated at
a concrete configuration with N = 0. -/
theorem C4_degenerate_config_errors_witness :
    ∃ e, pipeline_to_spline 3 ⟨1, 1 / 100, 0, 3, 0, defaultEpsilon, 1 / 100, 1 / 2⟩ =
      Except.error e :=
  C4_degenerate_config_errors 3 _ (Or.inl (le_refl 0))

/-- Claim C4 counterexample: with t_end < t_start nothing is detected
before computation — the grid construction and the symbolic-stage omega
computation complete successfully — and the first failure is the
CubicSpline constructor rejecting the decreasing grid with a library
ValueError, not a configuration-error message, refuting the claim of a
fail-fast configuration check. -/
theorem C4_reversed_bounds_not_detected_cex :
    (⟨1, 1 / 100, 0, -1, 2, defaultEpsilon, 1 / 100, 1 / 2⟩ : Config).t_end ≤
        (⟨1, 1 / 100, 0, -1, 2, defaultEpsilon, 1 / 100, 1 / 2⟩ : Config).t_start ∧
    pipeline_prelude 3 ⟨1, 1 / 100, 0, -1, 2, defaultEpsilon, 1 / 100, 1 / 2⟩ =
      Except.ok ([0, -1], -6) ∧
    pipeline_to_spline 3 ⟨1, 1 / 100, 0, -1, 2, defaultEpsilon, 1 / 100, 1 / 2⟩ =
      Except.error "ValueError: x must be strictly increasing sequence" := by
  have hpre : pipeline_prelude 3 ⟨1, 1 / 100, 0, -1, 2, defaultEpsilon, 1 / 100, 1 / 2⟩ =
      Except.ok ([0, -1], -6) := by
    have h1 : np_linspace 0 (-1) 2 = Except.ok [0, -1] := by
      unfold np_linspace linspace_sample
      rw [if_neg (by norm_num), show (2 : ℤ).toNat = 2 from rfl,
        show List.range 2 = [0, 1] from rfl]
      simp only [List.map_cons, List.map_nil]
      norm_num
    unfold pipeline_prelude
    rw [show (⟨1, 1 / 100, 0, -1, 2, defaultEpsilon, 1 / 100, 1 / 2⟩ : Config).t_start = 0
        from rfl,
      show (⟨1, 1 / 100, 0, -1, 2, defaultEpsilon, 1 / 100, 1 / 2⟩ : Config).t_end = -1
        from rfl,
      show (⟨1, 1 / 100, 0, -1, 2, defaultEpsilon, 1 / 100, 1 / 2⟩ : Config).N = 2 from rfl,
      h1]
    norm_num
  refine ⟨by norm_num, hpre, ?_⟩
  exact pipeline_to_spline_error_of_check 3 _ [0, -1] (-6) _ hpre
    (cubic_spline_check_not_increasing 0 (-1) [] (by norm_num))

/-- Claim C7 (confirmed): with C = 0 the right-hand side gives φ″ = 0,
its f‴ component does not depend on the φ or φ′ (or f) components of
the state, and any differentiable trajectory whose φ-components satisfy
the right-hand side stays linear: φ(t) = φ(t₀) + φ′(t₀)·(t − t₀). -/
theorem C7_decoupling (sinf : ℝ → ℝ) (delta_T omega_T epsilon : ℝ) (S0 : ℝ → ℝ)
    (F Fd Fdd phi phid : ℝ → ℝ) (t0 t : ℝ) (y ya yb : StateVec ℝ)
    (hb : ya.f_prime = yb.f_prime) (hc : ya.f_double_prime = yb.f_double_prime)
    (hphi : ∀ s, HasDerivAt phi (phid s) s)
    (hphid : ∀ s, HasDerivAt phid
      ((equations_of_motion sinf 0 delta_T omega_T epsilon S0 s
        ⟨F s, Fd s, Fdd s, phi s, phid s⟩).d_phi_prime) s) :
    (equations_of_motion sinf 0 delta_T omega_T epsilon S0 t y).d_phi_prime = 0 ∧
    (equations_of_motion sinf 0 delta_T omega_T epsilon S0 t ya).d_f_double_prime =
      (equations_of_motion sinf 0 delta_T omega_T epsilon S0 t yb).d_f_double_prime ∧
    phi t = phi t0 + phid t0 * (t - t0) := by
  refine ⟨by simp [equations_of_motion], by simp [equations_of_motion, hb, hc], ?_⟩
  have h0 : ∀ s, HasDerivAt phid 0 s := by
    intro s
    simpa [equations_of_motion] using hphid s
  have hconst : ∀ s, phid s = phid t0 := fun s =>
    is_const_of_deriv_eq_zero (fun x => (h0 x).differentiableAt)
      (fun x => (h0 x).deriv) s t0
  have hlin : ∀ s, HasDerivAt (fun u => phi u - phid t0 * u) 0 s := by
    intro s
    have h1 : HasDerivAt (fun u : ℝ => phid t0 * u) (phid t0) s := by
      simpa using (hasDerivAt_id s).const_mul (phid t0)
    have h2 := (hphi s).sub h1
    rw [hconst s, sub_self] at h2
    exact h2
  have hg : phi t - phid t0 * t = phi t0 - phid t0 * t0 :=
    is_const_of_deriv_eq_zero (fun x => (hlin x).differentiableAt)
      (fun x => (hlin x).deriv) t t0
  have hexp : phid t0 * (t - t0) = phid t0 * t - phid t0 * t0 := by ring
  linarith [hg, hexp]

/-- Claim C7 witness: the decoupling theorem evaluated on the concrete
linear trajectory φ(u) = u with φ′ ≡ 1, zero f-components, and zero
source, from t₀ = 0 to t = 1. -/
theorem C7_decoupling_witness :
    (equations_of_motion (fun _ : ℝ => 0) 0 0 0 1 (fun _ => 0) 1
        ⟨0, 0, 0, 0, 0⟩).d_phi_prime = 0 ∧
    (equations_of_motion (fun _ : ℝ => 0) 0 0 0 1 (fun _ => 0) 1
        ⟨0, 0, 0, 0, 0⟩).d_f_double_prime =
      (equations_of_motion (fun _ : ℝ => 0) 0 0 0 1 (fun _ => 0) 1
        ⟨0, 0, 0, 0, 0⟩).d_f_double_prime ∧
    (fun u : ℝ => u) 1 = (fun u : ℝ => u) 0 + (fun _ : ℝ => (1 : ℝ)) 0 * (1 - 0) :=
  C7_decoupling (fun _ => 0) 0 0 1 (fun _ => 0) (fun _ => 0) (fun _ => 0) (fun _ => 0)
    (fun u => u) (fun _ => 1) 0 1 ⟨0, 0, 0, 0, 0⟩ ⟨0, 0, 0, 0, 0⟩ ⟨0, 0, 0, 0, 0⟩
    rfl rfl (fun s => hasDerivAt_id s)
    (by
      intro s
      simpa [equations_of_motion] using hasDerivAt_const s (1 : ℝ))

end JTGravity
